import Mathlib

/-!
Verification of the DICOM preprocessing pipeline (`src/preprocess.py`).

The embedding models numpy `float64` arithmetic with exact rationals (`ℚ`),
numpy arrays as a flat data list together with a shape list, Python strings
as `String` (or `List Char` where elementwise reasoning is needed), and
Python exceptions as explicit `Except` / outcome constructors.  A value that
Python's dynamic typing lets range over `None`, numbers, strings and
pydicom `MultiValue` lists is modelled by the inductive type `DVal`.
-/

namespace Preprocess

/-- A numpy ndarray: `shape` together with the row-major flattened `data`. -/
structure NDArray where
  shape : List Nat
  data : List ℚ
deriving Repr, DecidableEq

/-- A dynamically typed DICOM attribute value: Python `None`, a string,
a number, or a pydicom `MultiValue` of numbers. -/
inductive DVal where
  | none
  | str (s : String)
  | num (q : ℚ)
  | multi (vs : List ℚ)
deriving Repr, DecidableEq

/-- Truncation toward zero, the conversion `numpy.astype` applies when
casting a float to an integer dtype. -/
def truncRat (q : ℚ) : ℤ :=
  if 0 ≤ q then ⌊q⌋ else -⌊-q⌋

/-- `np.clip(x, lo, hi)` for scalars (with `lo ≤ hi`). -/
def npClip (x lo hi : ℚ) : ℚ := min (max x lo) hi

/-- The per-sample mapping performed by `apply_windowing` once the
window has been validated: clip to `[center - width/2, center + width/2]`,
affinely rescale that range to `[0, 255]`, and cast to `uint8`. -/
def windowMap (c w x : ℚ) : ℚ :=
  ((truncRat ((npClip x (c - w / 2) (c + w / 2) - (c - w / 2)) /
      ((c + w / 2) - (c - w / 2)) * 255) : ℤ) : ℚ)

/-- `apply_windowing(pixel_array, window_center, window_width)`
(src/preprocess.py lines 25-35).  A raised `ValueError` is modelled by
`Except.error` carrying the message (the Python f-string also interpolates
the offending values; the interpolation is elided here, no caller inspects
these messages). -/
def apply_windowing (a : NDArray) (c w : ℚ) : Except String NDArray :=
  if w ≤ 0 then
    .error "window_width must be > 0"
  else
    let img_min := c - w / 2
    let img_max := c + w / 2
    if img_max - img_min ≤ 0 then
      .error "Invalid window parameters"
    else
      .ok ⟨a.shape, a.data.map (fun x =>
        ((truncRat ((npClip x img_min img_max - img_min) /
            (img_max - img_min) * 255) : ℤ) : ℚ))⟩

/-- `np.percentile(xs, q)` with the default linear-interpolation method:
virtual position `q/100 * (n-1)` into the sorted data, interpolating
between the two neighbouring order statistics.  (The source only calls it
on non-empty data.) -/
def percentile (l : List ℚ) (q : ℚ) : ℚ :=
  let s := l.mergeSort (fun a b => decide (a ≤ b))
  let n := s.length
  let pos : ℚ := q / 100 * ((n : ℚ) - 1)
  let i : ℕ := (⌊pos⌋).toNat
  let x0 := s.getD i 0
  let x1 := s.getD (i + 1) x0
  x0 + (pos - ((⌊pos⌋ : ℤ) : ℚ)) * (x1 - x0)

/-- `get_default_window(pixel_array, modality)` (src/preprocess.py
lines 38-45). -/
def get_default_window (a : NDArray) (modality : String) : ℚ × ℚ :=
  if modality = "CT" then (40, 80)
  else
    let positives := a.data.filter (fun x => decide (0 < x))
    let p : ℚ × ℚ :=
      if positives.isEmpty then (0, 255)
      else (percentile positives 5, percentile positives 95)
    ((p.1 + p.2) / 2, max (p.2 - p.1) 1)

/-- Python's `str.lower()` on an ASCII character (all messages the source
classifies are ASCII). -/
def pyLowerChar (c : Char) : Char :=
  if 'A' ≤ c ∧ c ≤ 'Z' then Char.ofNat (c.toNat + 32) else c

/-- Python's `str.lower()`. -/
def pyLower (s : String) : String := String.mk (s.data.map pyLowerChar)

/-- A whitespace character in the sense of Python's `str.strip()`. -/
def pyIsSpace (c : Char) : Bool :=
  c = ' ' || c = '\t' || c = '\n' || c = '\r' || c = '\x0b' || c = '\x0c'

/-- Python's `str.strip()`: drop whitespace from both ends. -/
def pyStrip (s : String) : String :=
  String.mk (((s.data.dropWhile pyIsSpace).reverse.dropWhile pyIsSpace).reverse)

/-- A decimal literal accepted by Python's `float()` builtin
(sign, digits, optional fractional part; exponents are not needed by
any caller in the source). -/
def parseFloatLit (s : String) : Option ℚ :=
  let t := pyStrip s
  let (neg, u) :=
    if t.startsWith "-" then (true, t.drop 1)
    else if t.startsWith "+" then (false, t.drop 1)
    else (false, t)
  let v? : Option ℚ :=
    match u.splitOn "." with
    | [a] => (a.toNat?).map (fun n => (n : ℚ))
    | [a, b] =>
      match (if a.isEmpty then some 0 else a.toNat?),
            (if b.isEmpty then some 0 else b.toNat?) with
      | some n, some f => some ((n : ℚ) + (f : ℚ) / (10 : ℚ) ^ b.length)
      | _, _ => Option.none
    | _ => Option.none
  if u.isEmpty then Option.none
  else v?.map (fun v => if neg then -v else v)

/-- Python's `float()` builtin on a DICOM value: numbers pass through,
numeric strings parse, `None` and `MultiValue` lists raise `TypeError`,
non-numeric strings raise `ValueError`. -/
def pyFloat : DVal → Except String ℚ
  | .none => .error "TypeError: float() argument must not be None"
  | .num q => .ok q
  | .str s =>
    match parseFloatLit s with
    | some q => .ok q
    | Option.none => .error ("ValueError: could not convert string to float: " ++ s)
  | .multi _ => .error "TypeError: float() argument must not be a sequence"

/-- Python's `int()` builtin on a DICOM value: numbers truncate toward
zero, integer-literal strings parse, `None` and `MultiValue` lists raise
`TypeError`, other strings raise `ValueError`. -/
def pyInt : DVal → Except String ℤ
  | .none => .error "TypeError: int() argument must not be None"
  | .num q => .ok (truncRat q)
  | .str s =>
    match (pyStrip s).toInt? with
    | some n => .ok n
    | Option.none => .error ("ValueError: invalid literal for int: " ++ s)
  | .multi _ => .error "TypeError: int() argument must not be a sequence"

/-- `safe_str(val)` (src/preprocess.py lines 48-55); `Option.none`
models Python `None`. -/
def safe_str (val : Option String) : String :=
  match val with
  | Option.none => ""
  | some v =>
    let s := pyStrip v
    if s = "None" ∨ s = "" then "" else s

/-- `safe_int(val, default=0)` (src/preprocess.py lines 58-63); the
Python default value `0` is passed explicitly at call sites. -/
def safe_int (val : DVal) (default : ℤ) : ℤ :=
  match pyInt val with
  | .ok n => n
  | .error _ => default

/-- `safe_float(val, default=0.0)` (src/preprocess.py lines 66-71); the
Python default value `0.0` is passed explicitly at call sites. -/
def safe_float (val : DVal) (default : ℚ) : ℚ :=
  match pyFloat val with
  | .ok q => q
  | .error _ => default

/-- The window-attribute conversion at src/preprocess.py lines 104-105:
`float(v[0]) if isinstance(v, pydicom.multival.MultiValue) else float(v)`.
Indexing an empty `MultiValue` raises `IndexError`. -/
def windowAttrValue : DVal → Except String ℚ
  | .multi [] => .error "IndexError: MultiValue index out of range"
  | .multi (q :: _) => pyFloat (.num q)
  | v => pyFloat v

/-- `img_data[k]`: indexing along the leading axis of an ndarray. -/
def frameAt (a : NDArray) (k : ℕ) : NDArray :=
  match a.shape with
  | [] => a
  | _ :: rest => ⟨rest, (a.data.drop (k * rest.prod)).take rest.prod⟩

/-- The multi-frame reduction at src/preprocess.py lines 112-114: a 3-D
array whose leading axis exceeds 1 is replaced by its middle frame
(index `shape[0] // 2`); every other array passes through unchanged. -/
def selectFrame (a : NDArray) : NDArray :=
  if a.shape.length = 3 ∧ 1 < a.shape.headD 0 then
    frameAt a (a.shape.headD 0 / 2)
  else a

/-- The outcome of calling a Python function that either returns a value,
returns an error message (the `(None, msg)` convention of
`process_dicom_file`), or lets an exception escape. -/
inductive PyOutcome (α : Type) where
  | ok (a : α)
  | err (msg : String)
  | raised (exn : String)
deriving Repr, DecidableEq

/-- The metadata dictionary built by `process_dicom_file`
(src/preprocess.py lines 116-139). -/
structure Metadata where
  patientName : String
  patientID : String
  patientBirthDate : String
  patientSex : String
  studyDate : String
  studyTime : String
  studyDescription : String
  studyInstanceUID : String
  seriesDescription : String
  seriesInstanceUID : String
  seriesNumber : ℤ
  instanceNumber : ℤ
  modality : String
  institution : String
  referringPhysician : String
  accession : String
  bodyPart : String
  rows : ℤ
  columns : ℤ
  windowCenter : ℚ
  windowWidth : ℚ
  sliceLocation : ℚ
deriving Repr, DecidableEq

/-- What the external decoder (`pydicom.dcmread` plus attribute access)
yields for one file; `Option.none` on an attribute models an absent
attribute (so `getattr` falls back to its default). -/
structure Dataset where
  readErr : Option String := Option.none
  hasPixelArray : Bool := true
  pixelDecode : Except String NDArray := .ok ⟨[], []⟩
  rescaleSlope : Option DVal := Option.none
  rescaleIntercept : Option DVal := Option.none
  windowCenter : Option DVal := Option.none
  windowWidth : Option DVal := Option.none
  modality : Option String := Option.none
  patientName : Option String := Option.none
  patientID : Option String := Option.none
  patientBirthDate : Option String := Option.none
  patientSex : Option String := Option.none
  studyDate : Option String := Option.none
  studyTime : Option String := Option.none
  studyDescription : Option String := Option.none
  studyInstanceUID : Option String := Option.none
  seriesDescription : Option String := Option.none
  seriesInstanceUID : Option String := Option.none
  institution : Option String := Option.none
  referringPhysician : Option String := Option.none
  accession : Option String := Option.none
  bodyPart : Option String := Option.none
  seriesNumber : Option DVal := Option.none
  instanceNumber : Option DVal := Option.none
  rows : Option DVal := Option.none
  columns : Option DVal := Option.none
  sliceLocation : Option DVal := Option.none

/-- `process_dicom_file(filepath)` (src/preprocess.py lines 74-141).
Only `dcmread` and the `pixel_array` decode are wrapped in `try`; every
later exception (`float()` of a malformed rescale/window attribute, the
`ValueError` of `apply_windowing`) escapes as `.raised`. -/
def process_dicom_file (ds : Dataset) : PyOutcome (Metadata × NDArray) :=
  match ds.readErr with
  | some e => .err ("Read error: " ++ e)
  | Option.none =>
    if ¬ ds.hasPixelArray then .err "No pixel data"
    else
      match ds.pixelDecode with
      | .error e => .err ("Pixel decode error: " ++ e)
      | .ok pixels0 =>
        if pixels0.data.all (fun x => x == 0) then
          .err "All-zero pixel data (damaged)"
        else
          match pyFloat ((ds.rescaleSlope).getD (.num 1)) with
          | .error e => .raised e
          | .ok slope =>
            match pyFloat ((ds.rescaleIntercept).getD (.num 0)) with
            | .error e => .raised e
            | .ok intercept =>
              let pixels : NDArray :=
                ⟨pixels0.shape, pixels0.data.map (fun x => x * slope + intercept)⟩
              let modality := safe_str ds.modality
              let wcww : Except String (ℚ × ℚ) :=
                match ds.windowCenter, ds.windowWidth with
                | some wc, some ww =>
                  match windowAttrValue wc with
                  | .error e => .error e
                  | .ok c =>
                    match windowAttrValue ww with
                    | .error e => .error e
                    | .ok w => .ok (c, w)
                | _, _ => .ok (get_default_window pixels modality)
              match wcww with
              | .error e => .raised e
              | .ok (wc, ww) =>
                match apply_windowing pixels wc ww with
                | .error e => .raised e
                | .ok img0 =>
                  let img_data := selectFrame img0
                  .ok ({ patientName := safe_str ds.patientName
                         patientID := safe_str ds.patientID
                         patientBirthDate := safe_str ds.patientBirthDate
                         patientSex := safe_str ds.patientSex
                         studyDate := safe_str ds.studyDate
                         studyTime := safe_str ds.studyTime
                         studyDescription := safe_str ds.studyDescription
                         studyInstanceUID := safe_str ds.studyInstanceUID
                         seriesDescription := safe_str ds.seriesDescription
                         seriesInstanceUID := safe_str ds.seriesInstanceUID
                         seriesNumber := safe_int ((ds.seriesNumber).getD (.num 0)) 0
                         instanceNumber := safe_int ((ds.instanceNumber).getD (.num 0)) 0
                         modality := modality
                         institution := safe_str ds.institution
                         referringPhysician := safe_str ds.referringPhysician
                         accession := safe_str ds.accession
                         bodyPart := safe_str ds.bodyPart
                         rows := safe_int ((ds.rows).getD (.num 0)) 0
                         columns := safe_int ((ds.columns).getD (.num 0)) 0
                         windowCenter := wc
                         windowWidth := ww
                         sliceLocation := safe_float ((ds.sliceLocation).getD (.num 0)) 0 },
                        img_data)

/-- Does `hay` start with `needle`? (List-level, used for Python's
substring operator.) -/
def startsWithL : List Char → List Char → Bool
  | [], _ => true
  | _ :: _, [] => false
  | a :: as, b :: bs => a == b && startsWithL as bs

/-- Python's substring operator `needle in hay` on the underlying
character lists. -/
def pyInL (needle : List Char) : List Char → Bool
  | [] => needle.isEmpty
  | c :: rest => startsWithL needle (c :: rest) || pyInL needle rest

/-- Python's `needle in hay` on strings. -/
def pyIn (needle hay : String) : Bool :=
  pyInL needle.data hay.data

/-- The state of `main`'s per-file loop after consuming all input, or at
the point an uncaught exception aborted it (src/preprocess.py lines
189-212): counts of files classified "damaged" (`skipped`) and "error"
(`errors`), and the records accumulated so far. -/
inductive LoopResult where
  | finished (skipped errors : ℕ) (records : List (Metadata × NDArray))
  | aborted (skipped errors : ℕ) (records : List (Metadata × NDArray)) (exn : String)
deriving Repr, DecidableEq

/-- The per-file loop of `main` (src/preprocess.py lines 189-204): each
failure message containing `"damaged"` (case-insensitive) increments the
damaged tally, any other failure increments the error tally, successes
are accumulated, and an uncaught exception aborts the whole loop. -/
def processLoop : List Dataset → ℕ → ℕ → List (Metadata × NDArray) → LoopResult
  | [], skipped, errors, recs => .finished skipped errors recs
  | d :: rest, skipped, errors, recs =>
    match process_dicom_file d with
    | .raised e => .aborted skipped errors recs e
    | .err msg =>
      if pyIn "damaged" (pyLower msg) then processLoop rest (skipped + 1) errors recs
      else processLoop rest skipped (errors + 1) recs
    | .ok r => processLoop rest skipped errors (recs ++ [r])

/-- Single-character `str.replace` as the source uses it. -/
def replaceChar (a b : Char) (l : List Char) : List Char :=
  l.map (fun c => if c = a then b else c)

/-- The study directory name synthesis at src/preprocess.py line 227:
`f"{modality}_{study_desc}_{uid_suffix}".replace(" ", "_").replace("/", "-")[:58]`
over the characters of the three components (`uid_suffix` being the
first 8 hex characters of the MD5 of the study UID, computed by the
external `hashlib`). -/
def study_dir_name (modality study_desc uid_suffix : List Char) : List Char :=
  (replaceChar '/' '-' (replaceChar ' ' '_'
    (modality ++ '_' :: study_desc ++ '_' :: uid_suffix))).take 58

/-- The sort key comparison at src/preprocess.py line 245:
ascending lexicographic on the tuple `(instanceNumber, sliceLocation)`. -/
def imageKeyLE (x y : Metadata × NDArray) : Prop :=
  x.1.instanceNumber < y.1.instanceNumber ∨
    (x.1.instanceNumber = y.1.instanceNumber ∧ x.1.sliceLocation ≤ y.1.sliceLocation)

instance : DecidableRel imageKeyLE := fun _ _ =>
  inferInstanceAs (Decidable (_ ∨ _))

instance : IsTotal (Metadata × NDArray) imageKeyLE :=
  ⟨fun x y => by
    unfold imageKeyLE
    rcases lt_trichotomy x.1.instanceNumber y.1.instanceNumber with h | h | h
    · exact Or.inl (Or.inl h)
    · rcases le_total x.1.sliceLocation y.1.sliceLocation with hs | hs
      · exact Or.inl (Or.inr ⟨h, hs⟩)
      · exact Or.inr (Or.inr ⟨h.symm, hs⟩)
    · exact Or.inr (Or.inl h)⟩

instance : IsTrans (Metadata × NDArray) imageKeyLE :=
  ⟨fun x y z hxy hyz => by
    unfold imageKeyLE at *
    rcases hxy with h1 | ⟨h1, hs1⟩
    · rcases hyz with h2 | ⟨h2, _⟩
      · exact Or.inl (h1.trans h2)
      · exact Or.inl (h2 ▸ h1)
    · rcases hyz with h2 | ⟨h2, hs2⟩
      · exact Or.inl (h1 ▸ h2)
      · exact Or.inr ⟨h1.trans h2, hs1.trans hs2⟩⟩

/-- `images.sort(key=lambda x: (x[0]["instanceNumber"], x[0]["sliceLocation"]))`
(src/preprocess.py line 245).  Python's `list.sort` is a stable sort;
any stable sort yields the same output, so it is modelled by insertion
sort. -/
def sortSeriesImages (l : List (Metadata × NDArray)) : List (Metadata × NDArray) :=
  l.insertionSort imageKeyLE

/-- The windowing transform as the specification words it: clip to the
window, affinely map the window onto the closed interval `[0, 255]`, and
round each result to the nearest integer.  Modelled from the spec (§4.2)
for comparison with `apply_windowing`. -/
def apply_windowing_rounded (a : NDArray) (c w : ℚ) : Except String NDArray :=
  if w ≤ 0 then
    .error "window_width must be > 0"
  else
    .ok ⟨a.shape, a.data.map (fun x =>
      ((round ((npClip x (c - w / 2) (c + w / 2) - (c - w / 2)) / w * 255) : ℤ) : ℚ))⟩

/-! ### Helper lemmas about the windowing arithmetic -/

theorem truncRat_eq_floor {q : ℚ} (h : 0 ≤ q) : truncRat q = ⌊q⌋ := by
  unfold truncRat
  rw [if_pos h]

theorem npClip_le {x lo hi : ℚ} : npClip x lo hi ≤ hi := min_le_right _ _

theorem le_npClip {x lo hi : ℚ} (h : lo ≤ hi) : lo ≤ npClip x lo hi :=
  le_min (le_max_right x lo) h

theorem npClip_mono {x y lo hi : ℚ} (hxy : x ≤ y) :
    npClip x lo hi ≤ npClip y lo hi :=
  min_le_min (max_le_max hxy le_rfl) le_rfl

/-- The scaled, pre-truncation value inside `windowMap` is in `[0, 255]`
whenever the width is positive. -/
theorem window_arg_bounds (c w x : ℚ) (hw : 0 < w) :
    0 ≤ (npClip x (c - w / 2) (c + w / 2) - (c - w / 2)) /
        ((c + w / 2) - (c - w / 2)) * 255 ∧
    (npClip x (c - w / 2) (c + w / 2) - (c - w / 2)) /
        ((c + w / 2) - (c - w / 2)) * 255 ≤ 255 := by
  have hwid : (c + w / 2) - (c - w / 2) = w := by ring
  have hlohi : c - w / 2 ≤ c + w / 2 := by linarith
  have hlo := @le_npClip x (c - w / 2) (c + w / 2) hlohi
  have hhi := @npClip_le x (c - w / 2) (c + w / 2)
  constructor
  · apply mul_nonneg _ (by norm_num)
    apply div_nonneg (by linarith)
    rw [hwid]; exact le_of_lt hw
  · have hr : (npClip x (c - w / 2) (c + w / 2) - (c - w / 2)) /
        ((c + w / 2) - (c - w / 2)) ≤ 1 := by
      rw [div_le_one (by rw [hwid]; exact hw)]
      linarith
    nlinarith

/-- With a positive width, `apply_windowing` takes neither error branch and
maps `windowMap` over the data. -/
theorem windowing_ok (a : NDArray) (c w : ℚ) (hw : 0 < w) :
    apply_windowing a c w = .ok ⟨a.shape, a.data.map (windowMap c w)⟩ := by
  have h1 : ¬ (w ≤ 0) := not_le.mpr hw
  have h2 : ¬ ((c + w / 2) - (c - w / 2) ≤ 0) := by
    rw [not_le]; linarith
  simp only [apply_windowing, h1, if_false, h2]
  rfl

theorem apply_windowing_shape {a b : NDArray} {c w : ℚ}
    (h : apply_windowing a c w = .ok b) : b.shape = a.shape := by
  by_cases hw : w ≤ 0
  · rw [apply_windowing, if_pos hw] at h
    exact absurd h (by simp)
  · rw [windowing_ok a c w (not_le.mp hw)] at h
    cases h
    rfl

theorem windowMap_bounds (c w x : ℚ) (hw : 0 < w) :
    0 ≤ windowMap c w x ∧ windowMap c w x ≤ 255 := by
  obtain ⟨h0, h255⟩ := window_arg_bounds c w x hw
  unfold windowMap
  rw [truncRat_eq_floor h0]
  constructor
  · exact_mod_cast Int.floor_nonneg.mpr h0
  · calc ((⌊(npClip x (c - w / 2) (c + w / 2) - (c - w / 2)) /
        ((c + w / 2) - (c - w / 2)) * 255⌋ : ℤ) : ℚ)
        ≤ (npClip x (c - w / 2) (c + w / 2) - (c - w / 2)) /
            ((c + w / 2) - (c - w / 2)) * 255 := Int.floor_le _
      _ ≤ 255 := h255

theorem windowMap_mono (c w : ℚ) (hw : 0 < w) {x y : ℚ} (hxy : x ≤ y) :
    windowMap c w x ≤ windowMap c w y := by
  have hwid : (c + w / 2) - (c - w / 2) = w := by ring
  have hx0 := (window_arg_bounds c w x hw).1
  have hy0 := (window_arg_bounds c w y hw).1
  have harg : (npClip x (c - w / 2) (c + w / 2) - (c - w / 2)) /
        ((c + w / 2) - (c - w / 2)) * 255 ≤
      (npClip y (c - w / 2) (c + w / 2) - (c - w / 2)) /
        ((c + w / 2) - (c - w / 2)) * 255 := by
    apply mul_le_mul_of_nonneg_right _ (by norm_num)
    rw [hwid]
    exact (div_le_div_iff_of_pos_right hw).mpr (sub_le_sub_right (npClip_mono hxy) _)
  unfold windowMap
  rw [truncRat_eq_floor hx0, truncRat_eq_floor hy0]
  exact_mod_cast Int.floor_le_floor harg

/-! ### Claim theorems about the Windowing Engine -/

/-- C5 (counterexample): `apply_windowing` does not round to the nearest
integer.  A sample of `0.999` under center `0.5`, width `1` maps to
`0.999 * 255 = 254.745`; the code's `astype(np.uint8)` truncates it to
`254`, whereas rounding to the nearest integer (the claim, modelled by
`apply_windowing_rounded`) gives `255`. -/
theorem apply_windowing_truncates_not_rounds :
    apply_windowing ⟨[1], [999/1000]⟩ (1/2) 1 = .ok ⟨[1], [254]⟩ ∧
    apply_windowing_rounded ⟨[1], [999/1000]⟩ (1/2) 1 = .ok ⟨[1], [255]⟩ ∧
    (254 : ℚ) ≠ 255 := by
  refine ⟨?_, ?_, by norm_num⟩
  · rw [windowing_ok _ _ _ (by norm_num)]
    simp only [List.map_cons, List.map_nil]
    norm_num [windowMap, npClip, truncRat, min_def, max_def]
  · unfold apply_windowing_rounded
    rw [if_neg (by norm_num)]
    simp only [List.map_cons, List.map_nil]
    norm_num [npClip, min_def, max_def, round_eq]

/-- C5 (amended): for every sample array and `width > 0`,
`apply_windowing` clips each sample to
`[center - width/2, center + width/2]`, affinely maps that range onto
`[0, 255]`, and truncates each result toward zero (equivalently floors it,
the results being nonnegative) — not rounding to nearest — returning
integer values in `[0, 255]` in an array of the same shape. -/
theorem apply_windowing_clip_affine_floor (a : NDArray) (c w : ℚ) (hw : 0 < w) :
    apply_windowing a c w = .ok ⟨a.shape, a.data.map (fun x =>
      ((⌊(npClip x (c - w / 2) (c + w / 2) - (c - w / 2)) / w * 255⌋ : ℤ) : ℚ))⟩ ∧
    (∀ out, apply_windowing a c w = .ok out →
      out.shape = a.shape ∧ ∀ v ∈ out.data, 0 ≤ v ∧ v ≤ 255 ∧ ∃ n : ℤ, v = (n : ℚ)) := by
  have hwid : (c + w / 2) - (c - w / 2) = w := by ring
  have hmap : windowMap c w = fun x =>
      ((⌊(npClip x (c - w / 2) (c + w / 2) - (c - w / 2)) / w * 255⌋ : ℤ) : ℚ) := by
    funext x
    have h0 := (window_arg_bounds c w x hw).1
    unfold windowMap
    rw [hwid] at h0 ⊢
    rw [truncRat_eq_floor h0]
  constructor
  · rw [windowing_ok a c w hw, hmap]
  · intro out hout
    rw [windowing_ok a c w hw] at hout
    cases hout
    refine ⟨rfl, ?_⟩
    intro v hv
    obtain ⟨x, _, rfl⟩ := List.mem_map.mp hv
    exact ⟨(windowMap_bounds c w x hw).1, (windowMap_bounds c w x hw).2,
      truncRat ((npClip x (c - w / 2) (c + w / 2) - (c - w / 2)) /
        ((c + w / 2) - (c - w / 2)) * 255), rfl⟩

/-- Witness for C5 (amended) at the concrete input of the
counterexample. -/
theorem apply_windowing_clip_affine_floor_witness :
    apply_windowing ⟨[1], [999/1000]⟩ (1/2) 1 =
      .ok ⟨[1], [(999/1000 : ℚ)].map (fun x =>
        ((⌊(npClip x (1/2 - 1/2) (1/2 + 1/2) - (1/2 - 1/2)) / 1 * 255⌋ : ℤ) : ℚ))⟩ :=
  (apply_windowing_clip_affine_floor ⟨[1], [999/1000]⟩ (1/2) 1 (by norm_num)).1

/-- C8: for all `width > 0` and all `center`, the `apply_windowing` output
is `windowMap` mapped over the samples, every `windowMap` value lies in
`[0, 255]`, and `windowMap` is monotonically non-decreasing in the input
sample value. -/
theorem apply_windowing_range_mono (a : NDArray) (c w : ℚ) (hw : 0 < w) :
    apply_windowing a c w = .ok ⟨a.shape, a.data.map (windowMap c w)⟩ ∧
    (∀ x, 0 ≤ windowMap c w x ∧ windowMap c w x ≤ 255) ∧
    (∀ x y : ℚ, x ≤ y → windowMap c w x ≤ windowMap c w y) :=
  ⟨windowing_ok a c w hw, fun x => windowMap_bounds c w x hw,
   fun _ _ hxy => windowMap_mono c w hw hxy⟩

/-- Witness for C8 at center `0`, width `2`, samples `0 ≤ 1`. -/
theorem apply_windowing_range_mono_witness :
    (0 ≤ windowMap 0 2 1 ∧ windowMap 0 2 1 ≤ 255) ∧
    windowMap 0 2 0 ≤ windowMap 0 2 1 :=
  ⟨(apply_windowing_range_mono ⟨[1], [1]⟩ 0 2 (by norm_num)).2.1 1,
   (apply_windowing_range_mono ⟨[1], [1]⟩ 0 2 (by norm_num)).2.2 0 1 (by norm_num)⟩

/-- C10: under `width > 0` and exact rational arithmetic the second error
branch of `apply_windowing` is unreachable — the window extent
`(center + width/2) - (center - width/2)` equals `width` — so the function
returns normally on every input with positive width. -/
theorem apply_windowing_total_pos_width (a : NDArray) (c w : ℚ) (hw : 0 < w) :
    ((c + w / 2) - (c - w / 2) = w) ∧ (apply_windowing a c w).isOk = true := by
  refine ⟨by ring, ?_⟩
  rw [windowing_ok a c w hw]
  rfl

/-- Witness for C10 at the CT brain window (center 40, width 80). -/
theorem apply_windowing_total_pos_width_witness :
    (((40 : ℚ) + 80 / 2) - (40 - 80 / 2) = 80) ∧
    (apply_windowing ⟨[1], [100]⟩ 40 80).isOk = true :=
  apply_windowing_total_pos_width ⟨[1], [100]⟩ 40 80 (by norm_num)

/-! ### Claim theorems about the default window heuristic -/

/-- C3 (counterexample): on an array with no strictly-positive sample and
a non-CT modality, `get_default_window` falls back to the percentile pair
`(0, 255)` and therefore returns center `(0 + 255)/2 = 127.5`, not the
center `0` the claim states. -/
theorem get_default_window_fallback_center :
    get_default_window ⟨[1], [-1]⟩ "MR" = (255 / 2, 255) ∧ (255 / 2 : ℚ) ≠ 0 := by
  refine ⟨?_, by norm_num⟩
  unfold get_default_window
  rw [if_neg (by decide)]
  norm_num [List.filter_cons, max_def, Prod.ext_iff]

/-- C3 (amended): for modality CT, `get_default_window` returns `(40, 80)`;
for any other modality, when strictly-positive samples exist it returns
center = midpoint of their 5th and 95th percentiles and
width = `max(p95 - p5, 1)`, and when none exist it returns center `127.5`
(the midpoint of the fallback pair `(0, 255)`) and width `255`. -/
theorem get_default_window_spec (a : NDArray) (m : String) (hm : m ≠ "CT") :
    get_default_window a "CT" = (40, 80) ∧
    (a.data.filter (fun x => decide (0 < x)) = [] →
      get_default_window a m = (255 / 2, 255)) ∧
    (∀ ps, a.data.filter (fun x => decide (0 < x)) = ps → ps ≠ [] →
      get_default_window a m =
        ((percentile ps 5 + percentile ps 95) / 2,
         max (percentile ps 95 - percentile ps 5) 1)) := by
  refine ⟨by rw [get_default_window, if_pos rfl], ?_, ?_⟩
  · intro hpos
    rw [get_default_window, if_neg hm]
    simp only [hpos, List.isEmpty_nil, if_pos]
    norm_num [max_def, Prod.ext_iff]
  · intro ps hps hne
    rw [get_default_window, if_neg hm]
    simp only [hps]
    rw [if_neg (by simpa [List.isEmpty_iff] using hne)]

/-- Witness for C3 (amended): a sample array whose positive samples are
`[1, 2, 3]`, under modality MR. -/
theorem get_default_window_spec_witness :
    get_default_window ⟨[3], [1, 2, 3]⟩ "MR" =
      ((percentile [1, 2, 3] 5 + percentile [1, 2, 3] 95) / 2,
       max (percentile [1, 2, 3] 95 - percentile [1, 2, 3] 5) 1) :=
  (get_default_window_spec ⟨[3], [1, 2, 3]⟩ "MR" (by decide)).2.2 [1, 2, 3]
    (by norm_num [List.filter_cons]) (by simp)

/-! ### Claim theorems about the Attribute Normalizer -/

/-- C7 (counterexample): on the multi-valued numeric attribute `[3, 4]`,
`safe_int` and `safe_float` do not return the first value `3`: Python's
`int()`/`float()` raise `TypeError` on a list, so they return the caller
default `0`. -/
theorem safe_cast_multivalue_default :
    safe_int (.multi [3, 4]) 0 = 0 ∧ (0 : ℤ) ≠ 3 ∧
    safe_float (.multi [3, 4]) 0 = 0 ∧ (0 : ℚ) ≠ 3 :=
  ⟨rfl, by norm_num, rfl, by norm_num⟩

/-- C7 (amended): only the WindowCenter/WindowWidth conversion takes the
first element of a multi-valued numeric attribute; the generic casts
`safe_int` and `safe_float` return the caller-specified default on every
multi-valued attribute (without raising). -/
theorem multivalue_first_value_spec :
    (∀ (q : ℚ) (t : List ℚ), windowAttrValue (.multi (q :: t)) = .ok q) ∧
    (∀ (vs : List ℚ) (d : ℤ), safe_int (.multi vs) d = d) ∧
    (∀ (vs : List ℚ) (d : ℚ), safe_float (.multi vs) d = d) :=
  ⟨fun _ _ => rfl, fun _ _ => rfl, fun _ _ => rfl⟩

/-! ### Claim theorems about directory-name synthesis -/

theorem map_eq_self_of {α : Type} (g : α → α) :
    ∀ l : List α, (∀ c ∈ l, g c = c) → l.map g = l
  | [], _ => rfl
  | c :: t, h => by
    simp only [List.map_cons]
    rw [h c (List.mem_cons_self c t),
      map_eq_self_of g t (fun x hx => h x (List.mem_cons_of_mem _ hx))]

/-- C2 (counterexample): with modality `CT` and a 55-character study
description, the substituted name exceeds 58 characters before the hash
suffix, so `[:58]` truncation removes the suffix entirely and two studies
with different hash suffixes (hence different UIDs) collide. -/
theorem study_dir_name_truncation_collision :
    study_dir_name "CT".data (List.replicate 55 'A') "aaaaaaaa".data =
      study_dir_name "CT".data (List.replicate 55 'A') "bbbbbbbb".data ∧
    "aaaaaaaa".data ≠ "bbbbbbbb".data := by
  constructor
  · decide
  · decide

/-- C2 (amended): two studies with identical modality and description get
distinct directory names whenever the name is short enough that the
58-character truncation preserves the 8-character hash suffix
(`len(modality) + len(description) + 10 ≤ 58`) and the suffixes (hex, so
free of space and slash) differ; when truncation cuts into the suffix,
distinct UIDs can collide (see the counterexample). -/
theorem replaceChar_append (a b : Char) (l₁ l₂ : List Char) :
    replaceChar a b (l₁ ++ l₂) = replaceChar a b l₁ ++ replaceChar a b l₂ :=
  List.map_append _ _ _

theorem replaceChar_length (a b : Char) (l : List Char) :
    (replaceChar a b l).length = l.length :=
  List.length_map _ _

theorem sanitize_id (s : List Char) (hs : ∀ ch ∈ s, ch ≠ ' ' ∧ ch ≠ '/') :
    replaceChar '/' '-' (replaceChar ' ' '_' s) = s := by
  unfold replaceChar
  rw [List.map_map]
  exact map_eq_self_of _ s (fun c hc => by
    simp only [Function.comp_apply, if_neg (hs c hc).1, if_neg (hs c hc).2])

theorem study_dir_name_distinct (m d s₁ s₂ : List Char)
    (hlen : m.length + d.length + 10 ≤ 58)
    (h1 : s₁.length = 8) (h2 : s₂.length = 8) (hne : s₁ ≠ s₂)
    (hc1 : ∀ ch ∈ s₁, ch ≠ ' ' ∧ ch ≠ '/')
    (hc2 : ∀ ch ∈ s₂, ch ≠ ' ' ∧ ch ≠ '/') :
    study_dir_name m d s₁ ≠ study_dir_name m d s₂ := by
  have split_eq : ∀ (s : List Char), (∀ ch ∈ s, ch ≠ ' ' ∧ ch ≠ '/') → s.length = 8 →
      study_dir_name m d s =
        replaceChar '/' '-' (replaceChar ' ' '_' (m ++ '_' :: d ++ ['_'])) ++ s := by
    intro s hs hlen8
    unfold study_dir_name
    have harr : m ++ '_' :: d ++ '_' :: s = (m ++ '_' :: d ++ ['_']) ++ s := by
      simp
    rw [harr, replaceChar_append, replaceChar_append, sanitize_id s hs]
    apply List.take_of_length_le
    have hP : (m ++ '_' :: d ++ ['_']).length = m.length + d.length + 2 := by
      simp [List.length_append]
      omega
    simp only [List.length_append, replaceChar_length, hP, hlen8]
    omega
  intro heq
  rw [split_eq s₁ hc1 h1, split_eq s₂ hc2 h2] at heq
  exact hne (List.append_cancel_left heq)

/-- Witness for C2 (amended): modality `CT`, description `HEAD`, and two
distinct 8-character hex suffixes give distinct directory names. -/
theorem study_dir_name_distinct_witness :
    study_dir_name "CT".data "HEAD".data "0a1b2c3d".data ≠
      study_dir_name "CT".data "HEAD".data "ffffffff".data :=
  study_dir_name_distinct "CT".data "HEAD".data "0a1b2c3d".data "ffffffff".data
    (by decide) (by decide) (by decide) (by decide) (by decide) (by decide)

/-! ### Claim theorems about series ordering -/

/-- An all-default metadata record. -/
def emptyMeta : Metadata :=
  { patientName := "", patientID := "", patientBirthDate := "", patientSex := "",
    studyDate := "", studyTime := "", studyDescription := "", studyInstanceUID := "",
    seriesDescription := "", seriesInstanceUID := "", seriesNumber := 0,
    instanceNumber := 0, modality := "", institution := "", referringPhysician := "",
    accession := "", bodyPart := "", rows := 0, columns := 0, windowCenter := 0,
    windowWidth := 1, sliceLocation := 0 }

/-- A record with the given instance number and slice location (all other
fields defaulted), as an element of a series image list. -/
def recIS (i : ℤ) (s : ℚ) : Metadata × NDArray :=
  ({ emptyMeta with instanceNumber := i, sliceLocation := s }, ⟨[], []⟩)

/-- C9: the series image sort orders records totally by ascending
`(instanceNumber, sliceLocation)` — the output is sorted under the key
comparison and is a permutation of the input; records with instance
numbers `[3, 1, 2]` and equal slice locations sort to `[1, 2, 3]`, and
records tied on instance number sort by ascending slice location. -/
theorem series_sort_spec :
    (∀ l : List (Metadata × NDArray),
      List.Sorted imageKeyLE (sortSeriesImages l) ∧ (sortSeriesImages l).Perm l) ∧
    (sortSeriesImages [recIS 3 0, recIS 1 0, recIS 2 0]).map
      (fun r => r.1.instanceNumber) = [1, 2, 3] ∧
    (sortSeriesImages [recIS 1 5, recIS 1 2]).map
      (fun r => r.1.sliceLocation) = [2, 5] := by
  refine ⟨fun l => ⟨List.sorted_insertionSort imageKeyLE l,
    List.perm_insertionSort imageKeyLE l⟩, ?_, ?_⟩
  · decide
  · decide

/-! ### Claim theorems about the per-file error boundary -/

/-- A file that reads successfully, has nonzero pixel data, and carries an
explicit `WindowWidth` of `0`. -/
def dsBadWindow : Dataset :=
  { pixelDecode := .ok ⟨[1, 1], [5]⟩,
    windowCenter := some (.num 50), windowWidth := some (.num 0) }

/-- A well-formed file with an explicit valid window. -/
def dsGood : Dataset :=
  { pixelDecode := .ok ⟨[2, 2], [0, 0, 0, 5]⟩,
    windowCenter := some (.num 50), windowWidth := some (.num 100) }

/-- C1 (code bug): when a file supplies an explicit window width `≤ 0`,
the `ValueError` raised by `apply_windowing` is NOT caught at the
per-file boundary — `process_dicom_file` wraps only `dcmread` and the
pixel decode in `try` — so it escapes `main`'s loop, aborting the run
before the remaining files are processed and without incrementing the
"error" tally. -/
theorem invalid_window_aborts_run :
    process_dicom_file dsBadWindow = .raised "window_width must be > 0" ∧
    processLoop [dsBadWindow, dsGood] 0 0 [] =
      .aborted 0 0 [] "window_width must be > 0" := by
  constructor
  · decide
  · decide

/-- A file whose read fails with an exception text containing the word
"damaged". -/
def dsReadDamaged : Dataset := { readErr := some "sector damaged, unreadable" }

/-- C4 (counterexample): a read failure — a `ReadError`-class failure the
claim says is always tallied as "error" — whose underlying exception text
contains "damaged" is tallied as "damaged" instead (`skipped = 1`,
`errors = 0`), because `main` classifies by substring match on the
message. -/
theorem read_error_message_miscounted :
    process_dicom_file dsReadDamaged = .err "Read error: sector damaged, unreadable" ∧
    processLoop [dsReadDamaged] 0 0 [] = .finished 1 0 [] ∧
    LoopResult.finished 1 0 [] ≠ LoopResult.finished 0 1 [] := by
  refine ⟨by decide, by decide, by decide⟩

/-- C4 (amended): every per-file failure lets the loop continue with the
remaining files, and the tally is decided by whether the failure message
contains the substring "damaged" case-insensitively: the all-zero
(`DamagedAllZero`) message does, and the read / no-pixel-data /
pixel-decode messages do not, provided the embedded exception text does
not itself contain "damaged". -/
theorem loop_classifies_by_damaged_substring :
    (∀ d rest skipped errors recs msg, process_dicom_file d = .err msg →
      processLoop (d :: rest) skipped errors recs =
        if pyIn "damaged" (pyLower msg) then processLoop rest (skipped + 1) errors recs
        else processLoop rest skipped (errors + 1) recs) ∧
    pyIn "damaged" (pyLower "All-zero pixel data (damaged)") = true ∧
    pyIn "damaged" (pyLower "No pixel data") = false ∧
    pyIn "damaged" (pyLower "Read error: Invalid DICOM header") = false ∧
    pyIn "damaged" (pyLower "Pixel decode error: unsupported transfer syntax") = false := by
  refine ⟨?_, by decide, by decide, by decide, by decide⟩
  intro d rest skipped errors recs msg h
  simp only [processLoop, h]

/-- A file without pixel data. -/
def dsNoPixel : Dataset := { hasPixelArray := false }

/-- Witness for C4 (amended): a no-pixel-data failure increments the
error tally and the loop finishes. -/
theorem loop_classification_witness :
    processLoop [dsNoPixel] 0 0 [] = .finished 0 1 [] := by
  have h := loop_classifies_by_damaged_substring.1 dsNoPixel [] 0 0 []
    "No pixel data" (by decide)
  rw [h, if_neg (by decide)]
  rfl

/-! ### Claim theorems about frame selection -/

/-- A file whose decoded pixel array is 3-D with a leading frame axis of
size 1. -/
def dsOneFrame3D : Dataset :=
  { pixelDecode := .ok ⟨[1, 2, 2], [0, 0, 0, 5]⟩,
    windowCenter := some (.num 50), windowWidth := some (.num 100) }

/-- C6 (counterexample): a successfully built record whose decoded array
is 3-D with leading axis of size 1 keeps a 3-D rendered array of shape
`[1, 2, 2]` — the frame-selection branch requires `shape[0] > 1` — so the
display array is not a 2-D frame. -/
theorem single_frame_3d_not_reduced :
    process_dicom_file dsOneFrame3D =
      .ok ({ emptyMeta with windowCenter := 50, windowWidth := 100 },
        ⟨[1, 2, 2], [0, 0, 0, 12]⟩) ∧
    ([1, 2, 2] : List ℕ).length ≠ 2 := by
  refine ⟨?_, by decide⟩
  have hresc : ([0, 0, 0, 5] : List ℚ).map (fun x => x * 1 + 0) = [0, 0, 0, 5] := by
    norm_num
  have hwin : apply_windowing ⟨[1, 2, 2], [0, 0, 0, 5]⟩ 50 100 =
      .ok ⟨[1, 2, 2], [0, 0, 0, 12]⟩ := by
    rw [windowing_ok _ _ _ (by norm_num)]
    simp only [List.map_cons, List.map_nil]
    norm_num [windowMap, npClip, truncRat, min_def, max_def]
  simp only [process_dicom_file, dsOneFrame3D, Option.getD_none, Option.getD_some,
    windowAttrValue, pyFloat, hresc, hwin]
  decide

/-- C6 (amended): the frame selector picks frame `⌊N/2⌋` (a 2-D frame)
exactly when the array is 3-D with leading axis `N > 1`; a 3-D array with
leading axis 1 and a 2-D array pass through unchanged (so the former
remains 3-D); and every successfully built record's rendered array is the
frame selector applied to the windowed array, whose shape equals the
decoded pixel array's shape. -/
theorem frame_selection_spec :
    (∀ (n r c : ℕ) (d : List ℚ), 1 < n →
      selectFrame ⟨[n, r, c], d⟩ = ⟨[r, c], (d.drop (n / 2 * (r * c))).take (r * c)⟩) ∧
    (∀ (r c : ℕ) (d : List ℚ), selectFrame ⟨[1, r, c], d⟩ = ⟨[1, r, c], d⟩) ∧
    (∀ (r c : ℕ) (d : List ℚ), selectFrame ⟨[r, c], d⟩ = ⟨[r, c], d⟩) ∧
    (∀ ds m img, process_dicom_file ds = .ok (m, img) →
      ∃ w : NDArray, img = selectFrame w ∧
        ∀ p, ds.pixelDecode = .ok p → w.shape = p.shape) := by
  refine ⟨?_, ?_, ?_, ?_⟩
  · intro n r c d hn
    unfold selectFrame
    rw [if_pos ⟨rfl, by simpa using hn⟩]
    unfold frameAt
    simp [mul_one]
  · intro r c d
    unfold selectFrame
    rw [if_neg (by simp)]
  · intro r c d
    unfold selectFrame
    rw [if_neg (by simp)]
  · intro ds m img h
    simp only [process_dicom_file] at h
    split at h
    · simp at h
    · split at h
      · simp at h
      · split at h
        · simp at h
        · rename_i pixels0 hpd
          split at h
          · simp at h
          · split at h
            · simp at h
            · split at h
              · simp at h
              · split at h
                · simp at h
                · split at h
                  · simp at h
                  · rename_i img0 hwin
                    simp only [PyOutcome.ok.injEq, Prod.mk.injEq] at h
                    refine ⟨img0, h.2.symm, ?_⟩
                    intro p hp
                    rw [hpd] at hp
                    cases hp
                    have := apply_windowing_shape hwin
                    simpa using this

/-- Witness for C6 (amended): a 3-frame 1x1 volume reduces to its middle
frame. -/
theorem frame_selection_spec_witness :
    selectFrame ⟨[3, 1, 1], [10, 20, 30]⟩ =
      ⟨[1, 1], (([10, 20, 30] : List ℚ).drop (3 / 2 * (1 * 1))).take (1 * 1)⟩ :=
  frame_selection_spec.1 3 1 1 [10, 20, 30] (by norm_num)

end Preprocess
